import Mathlib

/-!
Verification of the status-reporting endpoint of the ig-bot-ui repository.

The embedded code is src/app/api/progress/route.ts: a Next.js route handler
holding a single status record, backed by an external key-value store when
the environment variables KV_REST_API_URL and KV_REST_API_TOKEN are set, and
by an in-process fallback object otherwise.  The handlers are async
JavaScript; we embed them as pure functions over an explicit server state,
with the time of the write and the availability of the key-value backend
passed as parameters.
-/

/-- JSON values as returned by `request.json()`.  Numbers are modelled as
integers, which suffices for the truthiness distinctions the route makes. -/
inductive JValue where
  | jnull
  | jbool (b : Bool)
  | jnum (n : Int)
  | jstr (s : String)
  | jarr (elems : List JValue)
  | jobj (fields : List (String × JValue))

/-- JavaScript truthiness of a JSON value (`undefined` is handled separately
as `Option.none` at use sites).  Empty string, `false`, `0` and `null` are
falsy; every array and object is truthy. -/
def truthy : JValue → Bool
  | .jnull => false
  | .jbool b => b
  | .jnum n => n != 0
  | .jstr s => s != ""
  | .jarr _ => true
  | .jobj _ => true

/-- JavaScript property access `v.key` for non-null `v`: a lookup on objects
(first binding wins, as in a parsed JSON object), `undefined` (here `none`)
on every other non-null value.  Access on `null` throws and is handled at
the call site in `POST`. -/
def jProp (v : JValue) (key : String) : Option JValue :=
  match v with
  | .jobj fields => List.lookup key fields
  | _ => none

/-- The JavaScript expression `x || d` where `x` is a property access that
may be `undefined` (`none`): the value itself when truthy, else `d`. -/
def jsOr (v : Option JValue) (d : JValue) : JValue :=
  match v with
  | some x => if truthy x then x else d
  | none => d

/-- The stored status record.  `status`, `message`, `reelId` and `sender`
hold whatever JSON values the route computes (the route does not validate
their shape); `updatedAt` is the write timestamp, abstracted to a natural
number. -/
structure BotState where
  status : JValue
  message : JValue
  reelId : JValue
  sender : JValue
  updatedAt : Nat

/-- The module-level initial value of `fallbackStore` in route.ts, with the
module-load time `t0` as the initial timestamp. -/
def initFallbackStore (t0 : Nat) : BotState :=
  { status := .jstr "idle"
    message := .jstr "Bot is initializing..."
    reelId := .jnull
    sender := .jnull
    updatedAt := t0 }

/-- The process environment: the two credential variables read by the route.
`none` models an unset variable. -/
structure Env where
  KV_REST_API_URL : Option String
  KV_REST_API_TOKEN : Option String

/-- Truthiness of an environment variable (unset or empty is falsy). -/
def envTruthy : Option String → Bool
  | some s => s != ""
  | none => false

/-- The guard `process.env.KV_REST_API_URL && process.env.KV_REST_API_TOKEN`
used by both handlers. -/
def kvConfigured (env : Env) : Bool :=
  envTruthy env.KV_REST_API_URL && envTruthy env.KV_REST_API_TOKEN

/-- The mutable state visible to the route: the in-process `fallbackStore`
and the contents of the key-value store under the key `bot_state`
(`none` when the key has never been written, in which case `kv.get`
returns `null`). -/
structure ServerState where
  fallbackStore : BotState
  kv : Option BotState

/-- Server state before any POST has ever been performed: the fallback store
holds its initial value and the key-value store holds nothing. -/
def initServerState (t0 : Nat) : ServerState :=
  { fallbackStore := initFallbackStore t0, kv := none }

/-- An HTTP response carrying a status record as JSON body. -/
structure GetResponse where
  code : Nat
  body : BotState

/-- The response of the POST handler: `200` with `{success, state}` on the
success path, `400` with `{success:false, error:"Invalid payload"}` from the
catch block. -/
inductive PostResponse where
  | ok (state : BotState)
  | invalidPayload

/-- The HTTP status code of a POST response. -/
def PostResponse.code : PostResponse → Nat
  | .ok _ => 200
  | .invalidPayload => 400

/-- The outcome of `await request.json()`: either the body failed to parse
as JSON (the promise rejected) or it parsed to a JSON value. -/
inductive ReqBody where
  | parseError
  | parsed (v : JValue)

/-- The GET handler of route.ts.  `kvAvail` is whether the `kv.get` call
succeeds; when it throws, the catch block answers with the fallback store.
Every branch responds with HTTP 200. -/
def GET (env : Env) (kvAvail : Bool) (s : ServerState) :
    GetResponse × ServerState :=
  if kvConfigured env then
    if kvAvail then
      match s.kv with
      | some st => ({ code := 200, body := st }, s)
      | none => ({ code := 200, body := s.fallbackStore }, s)
    else ({ code := 200, body := s.fallbackStore }, s)
  else ({ code := 200, body := s.fallbackStore }, s)

/-- The `newState` object built by the POST handler from a non-null parsed
body: each field defaulted through `||`, `updatedAt` stamped with the
current server time. -/
def mkNewState (body : JValue) (now : Nat) : BotState :=
  { status := jsOr (jProp body "status") (.jstr "idle")
    message := jsOr (jProp body "message") (.jstr "")
    reelId := jsOr (jProp body "reelId") .jnull
    sender := jsOr (jProp body "sender") .jnull
    updatedAt := now }

/-- The POST handler of route.ts.  A body that fails to parse rejects inside
the try block and reaches the catch, as does property access on a parsed
`null` body, and a throwing `kv.set` (`kvAvail = false`); the catch answers
400 `Invalid payload` and writes nothing.  Otherwise the new record is
written to the key-value store when the credentials are configured, and to
the fallback store when they are not. -/
def POST (env : Env) (kvAvail : Bool) (body : ReqBody) (now : Nat)
    (s : ServerState) : PostResponse × ServerState :=
  match body with
  | .parseError => (.invalidPayload, s)
  | .parsed .jnull => (.invalidPayload, s)
  | .parsed v =>
    let newState := mkNewState v now
    if kvConfigured env then
      if kvAvail then (.ok newState, { s with kv := some newState })
      else (.invalidPayload, s)
    else (.ok newState, { s with fallbackStore := newState })

/-- The five status values declared by the dashboard type `BotState` in
web/src/app/page.tsx. -/
def validStatus : JValue → Bool
  | .jstr s =>
      s == "idle" || s == "downloading" || s == "uploading" ||
      s == "completed" || s == "error"
  | _ => false

/-! ## Helper lemmas -/

/-- Looking a key up past a binding with a different key skips it. -/
theorem lookup_cons_of_bne (k k' : String) (v : JValue)
    (fields : List (String × JValue)) (h : (k == k') = false) :
    List.lookup k ((k', v) :: fields) = List.lookup k fields := by
  simp [List.lookup, h]

/-! ## Claims -/

/-- C6: a GET issued before any POST has ever been performed returns 200
with the built-in default idle record, whatever the environment and the
availability of the key-value backend. -/
theorem get_before_any_post_is_default_idle (env : Env) (kvAvail : Bool)
    (t0 : Nat) :
    (GET env kvAvail (initServerState t0)).fst =
      { code := 200, body := initFallbackStore t0 } ∧
    (initFallbackStore t0).status = .jstr "idle" := by
  refine ⟨?_, rfl⟩
  unfold GET initServerState
  cases h : kvConfigured env <;> cases kvAvail <;> simp [h]

/-- C7: GET never modifies the server state (neither store, hence never
`updatedAt`), so any sequence of GETs with no intervening POST returns
identical records. -/
theorem get_is_pure_read (env : Env) (kvAvail : Bool) (s : ServerState) :
    (GET env kvAvail s).snd = s ∧
    (GET env kvAvail ((GET env kvAvail s).snd)).fst =
      (GET env kvAvail s).fst := by
  have hsnd : (GET env kvAvail s).snd = s := by
    unfold GET
    cases h : kvConfigured env <;> cases kvAvail <;> cases s.kv <;> simp [h]
  exact ⟨hsnd, by rw [hsnd]⟩

/-- C1: a POST whose parsed JSON body is an object replaces the record
wholesale: the response and the new stored record are `mkNewState` of the
body and the write time alone, they do not depend on the previously stored
record, and every omitted field is set to its default (status "idle", empty
message, null reelId and sender). -/
theorem post_partial_body_replaces_wholesale (env : Env) (kvAvail : Bool)
    (fields : List (String × JValue)) (now : Nat) (s s' : ServerState)
    (hw : kvConfigured env = false ∨ kvAvail = true) :
    (POST env kvAvail (.parsed (.jobj fields)) now s).fst =
      .ok (mkNewState (.jobj fields) now) ∧
    (POST env kvAvail (.parsed (.jobj fields)) now s).fst =
      (POST env kvAvail (.parsed (.jobj fields)) now s').fst ∧
    (kvConfigured env = true →
      (POST env kvAvail (.parsed (.jobj fields)) now s).snd =
        { s with kv := some (mkNewState (.jobj fields) now) }) ∧
    (kvConfigured env = false →
      (POST env kvAvail (.parsed (.jobj fields)) now s).snd =
        { s with fallbackStore := mkNewState (.jobj fields) now }) ∧
    (List.lookup "status" fields = none →
      (mkNewState (.jobj fields) now).status = .jstr "idle") ∧
    (List.lookup "message" fields = none →
      (mkNewState (.jobj fields) now).message = .jstr "") ∧
    (List.lookup "reelId" fields = none →
      (mkNewState (.jobj fields) now).reelId = .jnull) ∧
    (List.lookup "sender" fields = none →
      (mkNewState (.jobj fields) now).sender = .jnull) := by
  have hdef : ∀ (key : String) (d : JValue), List.lookup key fields = none →
      jsOr (jProp (.jobj fields) key) d = d := by
    intro key d h
    simp [jProp, jsOr, h]
  refine ⟨?_, ?_, ?_, ?_,
    fun h => hdef "status" (.jstr "idle") h,
    fun h => hdef "message" (.jstr "") h,
    fun h => hdef "reelId" .jnull h,
    fun h => hdef "sender" .jnull h⟩ <;>
    (rcases hw with h | h
     · simp [POST, h]
     · cases hc : kvConfigured env <;> simp [POST, hc, h])

/-- Witness for `post_partial_body_replaces_wholesale`: an unconfigured
environment, a body supplying only `status`, and two different prior
states. -/
theorem post_partial_body_replaces_wholesale_witness :
    (kvConfigured ⟨none, none⟩ = false ∨ (true : Bool) = true) ∧
    ((POST ⟨none, none⟩ true (.parsed (.jobj [("status", .jstr "uploading")]))
        5 (initServerState 0)).fst =
      .ok (mkNewState (.jobj [("status", .jstr "uploading")]) 5) ∧
    (POST ⟨none, none⟩ true (.parsed (.jobj [("status", .jstr "uploading")]))
        5 (initServerState 0)).fst =
      (POST ⟨none, none⟩ true (.parsed (.jobj [("status", .jstr "uploading")]))
        5 (initServerState 7)).fst ∧
    (kvConfigured ⟨none, none⟩ = true →
      (POST ⟨none, none⟩ true (.parsed (.jobj [("status", .jstr "uploading")]))
        5 (initServerState 0)).snd =
        { initServerState 0 with
            kv := some (mkNewState (.jobj [("status", .jstr "uploading")]) 5) }) ∧
    (kvConfigured ⟨none, none⟩ = false →
      (POST ⟨none, none⟩ true (.parsed (.jobj [("status", .jstr "uploading")]))
        5 (initServerState 0)).snd =
        { initServerState 0 with
            fallbackStore := mkNewState (.jobj [("status", .jstr "uploading")]) 5 }) ∧
    (List.lookup "status" [("status", JValue.jstr "uploading")] = none →
      (mkNewState (.jobj [("status", .jstr "uploading")]) 5).status = .jstr "idle") ∧
    (List.lookup "message" [("status", JValue.jstr "uploading")] = none →
      (mkNewState (.jobj [("status", .jstr "uploading")]) 5).message = .jstr "") ∧
    (List.lookup "reelId" [("status", JValue.jstr "uploading")] = none →
      (mkNewState (.jobj [("status", .jstr "uploading")]) 5).reelId = .jnull) ∧
    (List.lookup "sender" [("status", JValue.jstr "uploading")] = none →
      (mkNewState (.jobj [("status", .jstr "uploading")]) 5).sender = .jnull)) :=
  ⟨Or.inl rfl,
   post_partial_body_replaces_wholesale ⟨none, none⟩ true
     [("status", .jstr "uploading")] 5 (initServerState 0) (initServerState 7)
     (Or.inl rfl)⟩

/-- C2: a POST whose JSON body supplies all four fields with truthy values
followed by a GET with no intervening POST returns 200 with exactly the
posted values, plus an `updatedAt` stamped with the time of the write. -/
theorem post_full_body_get_roundtrip (env : Env) (kvAvail : Bool)
    (fields : List (String × JValue)) (vs vm vr vn : JValue) (now : Nat)
    (s : ServerState)
    (hw : kvConfigured env = false ∨ kvAvail = true)
    (hs : List.lookup "status" fields = some vs) (hts : truthy vs = true)
    (hm : List.lookup "message" fields = some vm) (htm : truthy vm = true)
    (hr : List.lookup "reelId" fields = some vr) (htr : truthy vr = true)
    (hn : List.lookup "sender" fields = some vn) (htn : truthy vn = true) :
    (GET env kvAvail
        (POST env kvAvail (.parsed (.jobj fields)) now s).snd).fst =
      { code := 200
        body := { status := vs, message := vm, reelId := vr, sender := vn
                  updatedAt := now } } := by
  have hmk : mkNewState (.jobj fields) now =
      { status := vs, message := vm, reelId := vr, sender := vn
        updatedAt := now } := by
    simp [mkNewState, jProp, jsOr, hs, hm, hr, hn, hts, htm, htr, htn]
  rcases hw with h | h
  · simp [POST, GET, h, hmk]
  · cases hc : kvConfigured env <;> simp [POST, GET, hc, h, hmk]

/-- Witness for `post_full_body_get_roundtrip`: the full body of the
worked example in the specification, posted to an unconfigured
environment. -/
theorem post_full_body_get_roundtrip_witness :
    (kvConfigured ⟨none, none⟩ = false ∨ (true : Bool) = true) ∧
    List.lookup "status" [("status", JValue.jstr "uploading"),
      ("message", JValue.jstr "Uploading reel"), ("reelId", JValue.jstr "abc123"),
      ("sender", JValue.jstr "alice")] = some (.jstr "uploading") ∧
    truthy (.jstr "uploading") = true ∧
    List.lookup "message" [("status", JValue.jstr "uploading"),
      ("message", JValue.jstr "Uploading reel"), ("reelId", JValue.jstr "abc123"),
      ("sender", JValue.jstr "alice")] = some (.jstr "Uploading reel") ∧
    truthy (.jstr "Uploading reel") = true ∧
    List.lookup "reelId" [("status", JValue.jstr "uploading"),
      ("message", JValue.jstr "Uploading reel"), ("reelId", JValue.jstr "abc123"),
      ("sender", JValue.jstr "alice")] = some (.jstr "abc123") ∧
    truthy (.jstr "abc123") = true ∧
    List.lookup "sender" [("status", JValue.jstr "uploading"),
      ("message", JValue.jstr "Uploading reel"), ("reelId", JValue.jstr "abc123"),
      ("sender", JValue.jstr "alice")] = some (.jstr "alice") ∧
    truthy (.jstr "alice") = true ∧
    (GET ⟨none, none⟩ true
        (POST ⟨none, none⟩ true (.parsed (.jobj [("status", JValue.jstr "uploading"),
          ("message", JValue.jstr "Uploading reel"), ("reelId", JValue.jstr "abc123"),
          ("sender", JValue.jstr "alice")])) 42 (initServerState 0)).snd).fst =
      { code := 200
        body := { status := .jstr "uploading", message := .jstr "Uploading reel"
                  reelId := .jstr "abc123", sender := .jstr "alice"
                  updatedAt := 42 } } :=
  ⟨Or.inl rfl, rfl, rfl, rfl, rfl, rfl, rfl, rfl, rfl,
   post_full_body_get_roundtrip ⟨none, none⟩ true
     [("status", .jstr "uploading"), ("message", .jstr "Uploading reel"),
      ("reelId", .jstr "abc123"), ("sender", .jstr "alice")]
     (.jstr "uploading") (.jstr "Uploading reel") (.jstr "abc123") (.jstr "alice")
     42 (initServerState 0) (Or.inl rfl) rfl rfl rfl rfl rfl rfl rfl rfl⟩

/-- C9: the record built by POST carries `updatedAt := now`, the server-side
write time; every POST of an object body either answers 400 or answers 200
with exactly that record; and an `updatedAt` field supplied in the body is
ignored: prepending such a binding changes neither the response nor the
resulting server state. -/
theorem post_updatedat_server_stamped (env : Env) (kvAvail : Bool)
    (fields : List (String × JValue)) (v : JValue) (now : Nat)
    (s : ServerState) :
    (mkNewState (.jobj fields) now).updatedAt = now ∧
    ((POST env kvAvail (.parsed (.jobj fields)) now s).fst =
        .ok (mkNewState (.jobj fields) now) ∨
      (POST env kvAvail (.parsed (.jobj fields)) now s).fst =
        .invalidPayload) ∧
    POST env kvAvail (.parsed (.jobj (("updatedAt", v) :: fields))) now s =
      POST env kvAvail (.parsed (.jobj fields)) now s := by
  have hmk : mkNewState (.jobj (("updatedAt", v) :: fields)) now =
      mkNewState (.jobj fields) now := by
    simp only [mkNewState, jProp]
    rw [lookup_cons_of_bne "status" "updatedAt" v fields rfl,
      lookup_cons_of_bne "message" "updatedAt" v fields rfl,
      lookup_cons_of_bne "reelId" "updatedAt" v fields rfl,
      lookup_cons_of_bne "sender" "updatedAt" v fields rfl]
  refine ⟨rfl, ?_, ?_⟩
  · cases hc : kvConfigured env <;> cases kvAvail <;> simp [POST, hc]
  · simp [POST, hmk]

/-- C10: a present-but-falsy field behaves exactly like an omitted one:
`x || d` gives the default whenever `x` is falsy, so a POST body carrying a
falsy value for a field stores that field's default (status "idle", empty
message, null reelId and sender), while the request still succeeds. -/
theorem post_falsy_field_stores_default (env : Env) (kvAvail : Bool)
    (fields : List (String × JValue)) (now : Nat) (s : ServerState)
    (v d : JValue)
    (hw : kvConfigured env = false ∨ kvAvail = true)
    (hf : truthy v = false) :
    jsOr (some v) d = jsOr none d ∧
    (POST env kvAvail (.parsed (.jobj fields)) now s).fst =
      .ok (mkNewState (.jobj fields) now) ∧
    (List.lookup "status" fields = some v →
      (mkNewState (.jobj fields) now).status = .jstr "idle") ∧
    (List.lookup "message" fields = some v →
      (mkNewState (.jobj fields) now).message = .jstr "") ∧
    (List.lookup "reelId" fields = some v →
      (mkNewState (.jobj fields) now).reelId = .jnull) ∧
    (List.lookup "sender" fields = some v →
      (mkNewState (.jobj fields) now).sender = .jnull) := by
  have hdef : ∀ (key : String) (dd : JValue),
      List.lookup key fields = some v →
      jsOr (jProp (.jobj fields) key) dd = dd := by
    intro key dd h
    simp [jProp, jsOr, h, hf]
  refine ⟨by simp [jsOr, hf], ?_, fun h => hdef _ _ h, fun h => hdef _ _ h,
    fun h => hdef _ _ h, fun h => hdef _ _ h⟩
  rcases hw with h | h
  · simp [POST, h]
  · cases hc : kvConfigured env <;> simp [POST, hc, h]

/-- Witness for `post_falsy_field_stores_default`: a body carrying the
falsy value `""` for `status`, stored as the default "idle". -/
theorem post_falsy_field_stores_default_witness :
    (kvConfigured ⟨none, none⟩ = false ∨ (true : Bool) = true) ∧
    truthy (.jstr "") = false ∧
    (jsOr (some (.jstr "")) .jnull = jsOr none .jnull ∧
    (POST ⟨none, none⟩ true (.parsed (.jobj [("status", .jstr "")])) 9
        (initServerState 0)).fst =
      .ok (mkNewState (.jobj [("status", .jstr "")]) 9) ∧
    (List.lookup "status" [("status", JValue.jstr "")] = some (.jstr "") →
      (mkNewState (.jobj [("status", .jstr "")]) 9).status = .jstr "idle") ∧
    (List.lookup "message" [("status", JValue.jstr "")] = some (.jstr "") →
      (mkNewState (.jobj [("status", .jstr "")]) 9).message = .jstr "") ∧
    (List.lookup "reelId" [("status", JValue.jstr "")] = some (.jstr "") →
      (mkNewState (.jobj [("status", .jstr "")]) 9).reelId = .jnull) ∧
    (List.lookup "sender" [("status", JValue.jstr "")] = some (.jstr "") →
      (mkNewState (.jobj [("status", .jstr "")]) 9).sender = .jnull)) :=
  ⟨Or.inl rfl, rfl,
   post_falsy_field_stores_default ⟨none, none⟩ true [("status", .jstr "")] 9
     (initServerState 0) (.jstr "") .jnull (Or.inl rfl) rfl⟩

/-- C3 counterexample: the HTTP body `null` parses as JSON, yet the POST
answers 400 Invalid payload, because the property accesses on the parsed
`null` throw inside the try block; so a POST whose body parses does not
always return 200 with success. -/
theorem post_parsed_body_can_return_400 :
    (POST ⟨none, none⟩ true (.parsed .jnull) 5 (initServerState 0)).fst =
      .invalidPayload ∧
    ((POST ⟨none, none⟩ true (.parsed .jnull) 5
      (initServerState 0)).fst).code = 400 :=
  ⟨rfl, rfl⟩

/-- C3 amended: a POST whose body fails to parse answers 400 Invalid
payload with the stored record unchanged; a POST whose body parses to a
non-null value answers 200 with the new state, provided the key-value
write does not throw; a parsed `null` body lands in the same catch and
answers the same 400 with the record unchanged. -/
theorem post_response_contract (env : Env) (kvAvail : Bool) (now : Nat)
    (s : ServerState) (v : JValue)
    (hv : v ≠ JValue.jnull)
    (hw : kvConfigured env = false ∨ kvAvail = true) :
    POST env kvAvail .parseError now s = (.invalidPayload, s) ∧
    PostResponse.code .invalidPayload = 400 ∧
    (POST env kvAvail (.parsed v) now s).fst = .ok (mkNewState v now) ∧
    ((POST env kvAvail (.parsed v) now s).fst).code = 200 ∧
    POST env kvAvail (.parsed .jnull) now s = (.invalidPayload, s) := by
  have h200 : (POST env kvAvail (.parsed v) now s).fst =
      .ok (mkNewState v now) := by
    rcases hw with h | h
    · cases v <;> simp [POST, h]
      all_goals exact absurd rfl hv
    · cases hc : kvConfigured env <;> cases v <;> simp [POST, hc, h]
      all_goals exact absurd rfl hv
  exact ⟨rfl, rfl, h200, by rw [h200]; rfl, rfl⟩

/-- Witness for `post_response_contract`: an empty-object body in an
unconfigured environment. -/
theorem post_response_contract_witness :
    JValue.jobj [] ≠ JValue.jnull ∧
    (kvConfigured ⟨none, none⟩ = false ∨ (true : Bool) = true) ∧
    (POST ⟨none, none⟩ true .parseError 5 (initServerState 0) =
      (.invalidPayload, initServerState 0) ∧
    PostResponse.code .invalidPayload = 400 ∧
    (POST ⟨none, none⟩ true (.parsed (.jobj [])) 5 (initServerState 0)).fst =
      .ok (mkNewState (.jobj []) 5) ∧
    ((POST ⟨none, none⟩ true (.parsed (.jobj [])) 5
      (initServerState 0)).fst).code = 200 ∧
    POST ⟨none, none⟩ true (.parsed .jnull) 5 (initServerState 0) =
      (.invalidPayload, initServerState 0)) :=
  ⟨fun h => JValue.noConfusion h, Or.inl rfl,
   post_response_contract ⟨none, none⟩ true 5 (initServerState 0) (.jobj [])
     (fun h => JValue.noConfusion h) (Or.inl rfl)⟩

/-- C4 counterexample: with the credentials configured but the key-value
backend throwing, a POST with a well-formed body does not degrade to the
in-memory fallback: it fails with the 400 Invalid-payload response and
writes nothing. -/
theorem post_storage_failure_fails_request :
    kvConfigured ⟨some "https://kv.example.com", some "tok"⟩ = true ∧
    POST ⟨some "https://kv.example.com", some "tok"⟩ false
        (.parsed (.jobj [("status", .jstr "uploading")])) 5
        (initServerState 0) =
      (.invalidPayload, initServerState 0) ∧
    PostResponse.code .invalidPayload = 400 :=
  ⟨rfl, rfl, rfl⟩

/-- C4 amended: when the key-value backend throws, GET degrades to the
in-process fallback store and still answers 200, but POST does not degrade:
it answers the same 400 as a parse failure and leaves both stores
unchanged. -/
theorem storage_failure_get_degrades_post_fails (env : Env)
    (s : ServerState) (body : ReqBody) (now : Nat)
    (hc : kvConfigured env = true) :
    GET env false s = ({ code := 200, body := s.fallbackStore }, s) ∧
    POST env false body now s = (.invalidPayload, s) := by
  constructor
  · simp [GET, hc]
  · cases body with
    | parseError => rfl
    | parsed v => cases v <;> simp [POST, hc]

/-- Witness for `storage_failure_get_degrades_post_fails`: a configured
environment whose key-value operations throw. -/
theorem storage_failure_get_degrades_post_fails_witness :
    kvConfigured ⟨some "https://kv.example.com", some "tok"⟩ = true ∧
    (GET ⟨some "https://kv.example.com", some "tok"⟩ false
        (initServerState 0) =
      ({ code := 200, body := (initServerState 0).fallbackStore },
        initServerState 0) ∧
    POST ⟨some "https://kv.example.com", some "tok"⟩ false
        (.parsed (.jobj [("status", .jstr "uploading")])) 5
        (initServerState 0) =
      (.invalidPayload, initServerState 0)) :=
  ⟨rfl,
   storage_failure_get_degrades_post_fails
     ⟨some "https://kv.example.com", some "tok"⟩ (initServerState 0)
     (.parsed (.jobj [("status", .jstr "uploading")])) 5 rfl⟩

/-- Every value in the dashboard status enum is truthy. -/
theorem truthy_of_validStatus (v : JValue) (h : validStatus v = true) :
    truthy v = true := by
  cases v <;> simp [validStatus] at h
  rcases h with ((((h | h) | h) | h) | h) <;> subst h <;> rfl

/-- C5 counterexample: the route does not validate `status`, so a POST
carrying the truthy value "sleeping" stores a status outside the dashboard
enum. -/
theorem post_stores_status_outside_enum :
    (POST ⟨none, none⟩ true (.parsed (.jobj [("status", .jstr "sleeping")]))
        5 (initServerState 0)).snd.fallbackStore.status = .jstr "sleeping" ∧
    validStatus (.jstr "sleeping") = false :=
  ⟨rfl, rfl⟩

/-- C5 amended: the initial record's status is in the dashboard enum, and a
POST keeps the stored status inside the enum whenever the body's status
field is omitted, falsy, or itself one of the five enum values; the route
performs no validation, so any other truthy status value passes through
verbatim. -/
theorem status_in_enum_for_wellformed_bodies (t0 now : Nat)
    (fields : List (String × JValue))
    (h : List.lookup "status" fields = none ∨
      (∃ v, List.lookup "status" fields = some v ∧ truthy v = false) ∨
      (∃ v, List.lookup "status" fields = some v ∧ validStatus v = true)) :
    validStatus (initFallbackStore t0).status = true ∧
    validStatus (mkNewState (.jobj fields) now).status = true := by
  refine ⟨rfl, ?_⟩
  have hst : (mkNewState (.jobj fields) now).status =
      jsOr (List.lookup "status" fields) (.jstr "idle") := rfl
  rw [hst]
  rcases h with h | ⟨v, hv, hf⟩ | ⟨v, hv, hval⟩
  · simp [h, jsOr, validStatus]
  · simp [hv, jsOr, hf, validStatus]
  · simp [hv, jsOr, truthy_of_validStatus v hval, hval]

/-- Witness for `status_in_enum_for_wellformed_bodies`: a body whose status
is the enum value "completed". -/
theorem status_in_enum_for_wellformed_bodies_witness :
    (List.lookup "status" [("status", JValue.jstr "completed")] = none ∨
      (∃ v, List.lookup "status" [("status", JValue.jstr "completed")] = some v ∧
        truthy v = false) ∨
      (∃ v, List.lookup "status" [("status", JValue.jstr "completed")] = some v ∧
        validStatus v = true)) ∧
    (validStatus (initFallbackStore 0).status = true ∧
    validStatus (mkNewState (.jobj [("status", JValue.jstr "completed")]) 7).status
      = true) :=
  ⟨Or.inr (Or.inr ⟨.jstr "completed", rfl, rfl⟩),
   status_in_enum_for_wellformed_bodies 0 7 [("status", .jstr "completed")]
     (Or.inr (Or.inr ⟨.jstr "completed", rfl, rfl⟩))⟩

/-- C8: backend selection is gated on the two credential variables: with
both set (and the store reachable) GET reads the key-value entry and POST
writes it, leaving the fallback store untouched; without them GET reads the
in-process fallback store and POST writes it, leaving the key-value entry
untouched. -/
theorem backend_selection_env_gated (env : Env) (kvAvail : Bool)
    (s : ServerState) (st : BotState) (v : JValue) (now : Nat)
    (hv : v ≠ JValue.jnull) :
    (kvConfigured env = true → kvAvail = true →
      (s.kv = some st → (GET env kvAvail s).fst.body = st) ∧
      (POST env kvAvail (.parsed v) now s).snd =
        { s with kv := some (mkNewState v now) }) ∧
    (kvConfigured env = false →
      (GET env kvAvail s).fst.body = s.fallbackStore ∧
      (POST env kvAvail (.parsed v) now s).snd =
        { s with fallbackStore := mkNewState v now }) := by
  constructor
  · intro hc ha
    refine ⟨fun hkv => by simp [GET, hc, ha, hkv], ?_⟩
    cases v <;> simp [POST, hc, ha]
    exact absurd rfl hv
  · intro hc
    refine ⟨by simp [GET, hc], ?_⟩
    cases v <;> simp [POST, hc]
    exact absurd rfl hv

/-- Witness for `backend_selection_env_gated`: a configured, reachable
environment, a state whose key-value entry is populated, and an
object body. -/
theorem backend_selection_env_gated_witness :
    JValue.jobj [("status", JValue.jstr "uploading")] ≠ JValue.jnull ∧
    ((kvConfigured ⟨some "https://kv.example.com", some "tok"⟩ = true →
      (true : Bool) = true →
      (({ fallbackStore := initFallbackStore 0,
          kv := some (initFallbackStore 3) } : ServerState).kv =
          some (initFallbackStore 3) →
        (GET ⟨some "https://kv.example.com", some "tok"⟩ true
          { fallbackStore := initFallbackStore 0,
            kv := some (initFallbackStore 3) }).fst.body =
          initFallbackStore 3) ∧
      (POST ⟨some "https://kv.example.com", some "tok"⟩ true
          (.parsed (.jobj [("status", JValue.jstr "uploading")])) 5
          { fallbackStore := initFallbackStore 0,
            kv := some (initFallbackStore 3) }).snd =
        { ({ fallbackStore := initFallbackStore 0,
             kv := some (initFallbackStore 3) } : ServerState) with
            kv := some (mkNewState
              (.jobj [("status", JValue.jstr "uploading")]) 5) }) ∧
    (kvConfigured ⟨some "https://kv.example.com", some "tok"⟩ = false →
      (GET ⟨some "https://kv.example.com", some "tok"⟩ true
        { fallbackStore := initFallbackStore 0,
          kv := some (initFallbackStore 3) }).fst.body =
        ({ fallbackStore := initFallbackStore 0,
           kv := some (initFallbackStore 3) } : ServerState).fallbackStore ∧
      (POST ⟨some "https://kv.example.com", some "tok"⟩ true
          (.parsed (.jobj [("status", JValue.jstr "uploading")])) 5
          { fallbackStore := initFallbackStore 0,
            kv := some (initFallbackStore 3) }).snd =
        { ({ fallbackStore := initFallbackStore 0,
             kv := some (initFallbackStore 3) } : ServerState) with
            fallbackStore := mkNewState
              (.jobj [("status", JValue.jstr "uploading")]) 5 })) :=
  ⟨fun h => JValue.noConfusion h,
   backend_selection_env_gated ⟨some "https://kv.example.com", some "tok"⟩
     true { fallbackStore := initFallbackStore 0,
            kv := some (initFallbackStore 3) }
     (initFallbackStore 3) (.jobj [("status", JValue.jstr "uploading")]) 5
     (fun h => JValue.noConfusion h)⟩
